import Mathlib

/-
Verification of the date-arithmetic core of `uob_utils.py`.

The module's core is a set of pure functions on calendar dates:
`WeekOne`, `UniversityWeek`, `DateFromUniversityWeek`, `AcademicYear`,
`TermWeek`, `FindCorrespondingDate`, and the working-day counter
`days_since_deadline`.

Embedding conventions:
* A `datetime.date` is represented by its proleptic-Gregorian ordinal
  (CPython's `date.toordinal()`: ordinal 1 is 0001-01-01).  `ymd2ord`
  below is a direct translation of CPython's `_ymd2ord`.  Dates compare
  and subtract exactly as their ordinals do, and
  `date.weekday() = (toordinal() + 6) % 7` (Monday = 0), as in CPython.
* A `datetime.datetime` is represented by an integer count of seconds,
  where the datetime with date-ordinal `o` at midnight is `o * 86400`
  and `dt.date()` is `dt / 86400` (floor).  `timedelta(days = k)` is
  `k * 86400`, and `(a - b).total_seconds()` is `a - b`.
* Lean's `Int` `/` and `%` are floor division and nonnegative remainder
  for positive divisors, matching Python's `//` and `%`; `math.floor`
  of a true division by a positive integer is also `/`, and `math.ceil`
  is `fun a b => -((-a) / b)`.
* The `while` loop in `days_since_deadline` is written with an explicit
  fuel argument.  The loop aborts (`sys.exit`) as soon as
  `days_from_deadline` exceeds 1000, and `days_from_deadline` starts at
  1 and increases by one per iteration, so 1000 fuel steps make the
  fuel-exhaustion branch unreachable; it is mapped to the same `none`
  as the abort.  `sys.exit` (a fatal error) is modelled as `none`.
-/

/-- Translation of CPython `_is_leap`. -/
def is_leap (y : Int) : Bool :=
  y % 4 == 0 && (y % 100 != 0 || y % 400 == 0)

/-- Translation of CPython `_days_before_year`. -/
def days_before_year (y : Int) : Int :=
  (y - 1) * 365 + (y - 1) / 4 - (y - 1) / 100 + (y - 1) / 400

/-- Cumulative `_DAYS_BEFORE_MONTH` table of CPython (non-leap years). -/
def days_before_month_table (m : Int) : Int :=
  if m ≤ 1 then 0
  else if m = 2 then 31
  else if m = 3 then 59
  else if m = 4 then 90
  else if m = 5 then 120
  else if m = 6 then 151
  else if m = 7 then 181
  else if m = 8 then 212
  else if m = 9 then 243
  else if m = 10 then 273
  else if m = 11 then 304
  else 334

/-- Translation of CPython `_days_before_month`. -/
def days_before_month (y m : Int) : Int :=
  days_before_month_table m + (if 2 < m ∧ is_leap y then 1 else 0)

/-- Translation of CPython `_days_in_month`. -/
def days_in_month (y m : Int) : Int :=
  if m = 2 then (if is_leap y then 29 else 28)
  else if m = 4 ∨ m = 6 ∨ m = 9 ∨ m = 11 then 30
  else 31

/-- Translation of CPython `_ymd2ord`: the proleptic-Gregorian ordinal of
the date `(y, m, d)` (ordinal 1 is 0001-01-01). -/
def ymd2ord (y m d : Int) : Int :=
  days_before_year y + days_before_month y m + d

/-- CPython `date.weekday()` on an ordinal: `(toordinal() + 6) % 7`,
Monday = 0 .. Sunday = 6. -/
def pyWeekday (o : Int) : Int := (o + 6) % 7

/-- A `datetime.date` value as the caller supplies it: a year/month/day
triple.  Order, subtraction and weekday go through `PyDate.ord`. -/
structure PyDate where
  year : Int
  month : Int
  day : Int
deriving DecidableEq

/-- Ordinal of a date (CPython `date.toordinal()`). -/
def PyDate.ord (d : PyDate) : Int := ymd2ord d.year d.month d.day

/-- CPython `date.weekday()` for a date value. -/
def PyDate.weekday (d : PyDate) : Int := pyWeekday d.ord

/-- A well-formed year/month/day triple (the triples `datetime.date`
accepts, with the year left unbounded: the proleptic extension). -/
def PyDate.validDate (d : PyDate) : Prop :=
  1 ≤ d.month ∧ d.month ≤ 12 ∧ 1 ≤ d.day ∧ d.day ≤ days_in_month d.year d.month

instance (d : PyDate) : Decidable d.validDate := by
  unfold PyDate.validDate; infer_instance

/-- Translation of `calendar.Calendar(firstweekday).monthdatescalendar(y, m)[-1][0]`:
the month view is partitioned into weeks that begin on `firstweekday`, so the
first day of the last displayed week is the unique day with weekday
`firstweekday` that lies on or at most six days before the month's last day. -/
def monthdatescalendar_last_week_first (firstweekday y m : Int) : Int :=
  let last := ymd2ord y m (days_in_month y m)
  last - ((pyWeekday last - firstweekday) % 7)

/-- Translation of `WeekOne` (uob_utils.py lines 122-129): with a Friday-first
calendar (`calendar.Calendar(4)`), the first day of the last week of August is
a Friday; subtracting 4 days gives the Monday returned.  The result is the
ordinal of the returned `datetime.date`. -/
def WeekOne (year : Int) : Int :=
  monthdatescalendar_last_week_first 4 year 8 - 4

/-- Translation of `AugustBankHoliday` (uob_utils.py lines 114-120): the Monday
that starts the last week of a Monday-first calendar view of August. -/
def AugustBankHoliday (year : Int) : Int :=
  monthdatescalendar_last_week_first 0 year 8

/-- Translation of `UniversityWeek` (uob_utils.py lines 131-136). -/
def UniversityWeek (date : PyDate) : Int :=
  if WeekOne date.year ≤ date.ord then
    (date.ord - WeekOne date.year) / 7 + 1
  else
    (date.ord - WeekOne (date.year - 1)) / 7 + 1

/-- Translation of `DateFromUniversityWeek` (uob_utils.py lines 138-140):
`WeekOne(ayear) + timedelta(weeks = uweek - 1) + timedelta(days = dow)`,
as an ordinal. -/
def DateFromUniversityWeek (ayear uweek dow : Int) : Int :=
  WeekOne ayear + 7 * (uweek - 1) + dow

/-- Translation of `AcademicYear` (uob_utils.py lines 142-147). -/
def AcademicYear (date : PyDate) : Int :=
  if WeekOne date.year ≤ date.ord then date.year else date.year - 1

/-- Translation of `TermWeek` (uob_utils.py lines 149-159): the returned
list `[term, term_week, university_week]` as a triple (the source binds
`uweek = UniversityWeek(date)` once; it is inlined here). -/
def TermWeek (date : PyDate) : Int × Int × Int :=
  if UniversityWeek date ≤ 16 ∧ 5 ≤ UniversityWeek date then
    (1, UniversityWeek date - 5, UniversityWeek date)
  else if UniversityWeek date ≤ 31 ∧ 21 ≤ UniversityWeek date then
    (2, UniversityWeek date - 20, UniversityWeek date)
  else if UniversityWeek date ≤ 43 ∧ 36 ≤ UniversityWeek date then
    (3, UniversityWeek date - 35, UniversityWeek date)
  else (0, 0, UniversityWeek date)

/-- Translation of `FindCorrespondingDate` (uob_utils.py lines 161-163). -/
def FindCorrespondingDate (date : PyDate) (ayear : Int) : Int :=
  DateFromUniversityWeek ayear (UniversityWeek date) date.weekday

/-- Python `math.ceil(a / b)` for integers `a` and positive `b`. -/
def int_ceil (a b : Int) : Int := -((-a) / b)

/-- Translation of the two decrementing passes over `days_elapsed`
(uob_utils.py lines 178-186): the raw `math.ceil` day count, minus one for
every `i in range(1, days_elapsed + 1)` whose day is a Saturday or Sunday,
minus one for every closed day `c` with
`(today - c).total_seconds() > 0 and (deadline - c).total_seconds() < 0`.
`deadline`, `today` and the entries of `closed_days` are datetimes
(integer seconds). -/
def elapsed_days (deadline today : Int) (closed_days : List Int) : Int :=
  let days_elapsed0 := int_ceil (today - deadline) 86400
  let days_elapsed1 := (List.range days_elapsed0.toNat).foldl
    (fun acc j =>
      if 4 < pyWeekday ((deadline + ((j : Int) + 1) * 86400) / 86400) then acc - 1 else acc)
    days_elapsed0
  closed_days.foldl
    (fun acc c => if 0 < today - c ∧ deadline - c < 0 then acc - 1 else acc)
    days_elapsed1

/-- Translation of the `while working_days_from_deadline < DAYS_TO_MARK` loop
(uob_utils.py lines 188-198), with `working` and `days_from` the two loop
counters.  `none` is the `sys.exit` abort.  The first `fuel` pattern is the
unreachable fuel-exhaustion branch (see the header comment). -/
def scanAux (deadline days_to_mark : Int) (closed_dates : List Int) :
    Nat → Int → Int → Option Int
  | 0, _, _ => none
  | Nat.succ fuel, working, days_from =>
    if working < days_to_mark then
      let dord := (deadline + days_from * 86400) / 86400
      let working' :=
        if pyWeekday dord < 5 ∧ ¬ dord ∈ closed_dates then working + 1 else working
      if 1000 < days_from + 1 then none
      else scanAux deadline days_to_mark closed_dates fuel working' (days_from + 1)
    else some (deadline + (days_from - 1) * 86400)

/-- Translation of `is_working_day` (uob_utils.py line 199):
`today.weekday() < 5 and today.date() not in closed_dates`. -/
def is_working_day (today : Int) (closed_dates : List Int) : Bool :=
  decide (pyWeekday (today / 86400) < 5 ∧ ¬ today / 86400 ∈ closed_dates)

/-- Translation of `days_since_deadline` (uob_utils.py lines 166-200) with the
hardcoded `DAYS_TO_MARK = 15` generalized to the parameter `days_to_mark`
(the spec's `markingWindowDays`), `today` generalized from
`datetime.datetime.now()`, and the hardcoded closed-day list generalized to
the parameter `closed_days` (a list of datetimes, midnights in the original;
`closed_dates` is the list of their `.date()` values, as in the source).
Returns `(days_elapsed - 1, marking_deadline, is_working_day)`, or `none`
for the `sys.exit` abort. -/
def days_since_deadline_gen (days_to_mark deadline today : Int)
    (closed_days : List Int) : Option (Int × Int × Bool) :=
  let closed_dates := closed_days.map (fun s => s / 86400)
  match scanAux deadline days_to_mark closed_dates 1000 0 1 with
  | none => none
  | some marking_deadline =>
    some (elapsed_days deadline today closed_days - 1, marking_deadline,
      is_working_day today closed_dates)

/-- Translation of `days_since_deadline` with the source's `DAYS_TO_MARK = 15`. -/
def days_since_deadline (deadline today : Int) (closed_days : List Int) :
    Option (Int × Int × Bool) :=
  days_since_deadline_gen 15 deadline today closed_days

/-- Translation of `READABLE_CLOSED_DAYS` (uob_utils.py lines 169-175). -/
def READABLE_CLOSED_DAYS : List PyDate :=
  [⟨2022, 12, 19⟩, ⟨2022, 12, 20⟩, ⟨2022, 12, 21⟩, ⟨2022, 12, 22⟩, ⟨2022, 12, 23⟩,
   ⟨2022, 12, 26⟩, ⟨2022, 12, 27⟩, ⟨2022, 12, 28⟩, ⟨2022, 12, 29⟩, ⟨2022, 12, 30⟩,
   ⟨2023, 1, 2⟩,
   ⟨2023, 4, 7⟩, ⟨2023, 4, 10⟩, ⟨2023, 4, 11⟩, ⟨2023, 4, 12⟩,
   ⟨2023, 5, 1⟩, ⟨2023, 5, 29⟩, ⟨2023, 8, 28⟩]

/-- Translation of `closed_days` (uob_utils.py line 176): the midnight
datetimes of the hardcoded closed days. -/
def closed_days_source : List Int :=
  READABLE_CLOSED_DAYS.map (fun p => p.ord * 86400)

/-
Spec-side definitions.  These follow the wording of the specification and
are compared against the translated code above.
-/

/-- Spec-side count for the elapsed-days formula: the number of Saturdays
and Sundays among the days `deadline + 1 .. deadline + raw` ("walk every day
strictly between deadline and today, inclusive of today, and decrement once
for each day that is a Saturday/Sunday"). -/
def spec_weekend_count (deadline raw : Int) : Int :=
  ((List.range raw.toNat).countP
    (fun j => decide (pyWeekday ((deadline + ((j : Int) + 1) * 86400) / 86400) = 5 ∨
      pyWeekday ((deadline + ((j : Int) + 1) * 86400) / 86400) = 6)) : Nat)

/-- Spec-side count of excluded closed days: the closed days `c` with
`deadline < c` and `c` before `today` (the spec's
"`deadline < closedDay <= today` in time order", where each closed day is a
midnight datetime so the comparison against `today` is strict). -/
def spec_closed_count (deadline today : Int) (closed_days : List Int) : Int :=
  (closed_days.countP (fun c => decide (deadline < c ∧ c < today)) : Nat)

/-- Spec-side step of the marking-deadline walk with no closed dates: the
next day after `o` (an ordinal) that is not a Saturday or Sunday; at most two
consecutive days are weekend days, so three candidate days suffice. -/
def spec_next_working (o : Int) : Int :=
  if pyWeekday (o + 1) < 5 then o + 1
  else if pyWeekday (o + 2) < 5 then o + 2
  else o + 3

/-- Spec-side marking deadline with no closed dates: starting from the day
after ordinal `o`, walk forward counting days that are not Saturday/Sunday,
and return the `n`-th such day ("the deadline date plus `n` calendar
weekdays, skipping weekends"). -/
def spec_add_weekdays (o : Int) : Nat → Int
  | 0 => o
  | Nat.succ n => spec_add_weekdays (spec_next_working o) n

/-- Weekday-dependent slack used by the loop-progress invariant of the
marking-deadline scan: at most two further days are needed before the next
working day. -/
def wdslack (o : Int) : Int :=
  if pyWeekday o = 5 then 2 else if pyWeekday o = 6 then 1 else 0

/-- Day-of-month on which `WeekOne y` falls (always in August, see
`C7_year_boundary`). -/
def weekOneDay (y : Int) : Int :=
  WeekOne y - (days_before_year y + days_before_month y 8)

/-- The calendar date of `WeekOne y` as a year/month/day triple. -/
def weekOneDate (y : Int) : PyDate := ⟨y, 8, weekOneDay y⟩

/-- The Sunday immediately before `WeekOne y`, as a year/month/day triple. -/
def sundayBeforeWeekOne (y : Int) : PyDate := ⟨y, 8, weekOneDay y - 1⟩

/-
Helper lemmas.
-/

/-- August has 31 days. -/
theorem days_in_month_august (y : Int) : days_in_month y 8 = 31 := by
  norm_num [days_in_month]

/-- Closed form of `WeekOne` in terms of the ordinal of 31 August. -/
theorem weekOne_closed_form (y : Int) :
    WeekOne y = ymd2ord y 8 31 - ((ymd2ord y 8 31 + 6) % 7 - 4) % 7 - 4 := by
  unfold WeekOne monthdatescalendar_last_week_first pyWeekday
  rw [days_in_month_august]

/-- Ordinals within August are linear in the day of the month. -/
theorem ymd2ord_august (y d : Int) : ymd2ord y 8 d = ymd2ord y 8 1 + (d - 1) := by
  unfold ymd2ord; ring

/-- The Monday returned by `WeekOne` always has ordinal residue 1 mod 7
(i.e. it really is a Monday: `pyWeekday` 0). -/
theorem weekOne_emod (y : Int) : WeekOne y % 7 = 1 := by
  rw [weekOne_closed_form]; omega

/-- `UniversityWeek` counts whole weeks from the `WeekOne` of the academic
year that `AcademicYear` assigns to the date (the two functions branch on
the same comparison). -/
theorem universityWeek_eq_anchor (d : PyDate) :
    UniversityWeek d = (d.ord - WeekOne (AcademicYear d)) / 7 + 1 := by
  by_cases h : WeekOne d.year ≤ d.ord <;> simp [UniversityWeek, AcademicYear, h]

/-- The day-of-month of `WeekOne y` lies between 21 and 27. -/
theorem weekOneDay_bounds (y : Int) : 21 ≤ weekOneDay y ∧ weekOneDay y ≤ 27 := by
  unfold weekOneDay
  rw [weekOne_closed_form, ymd2ord_august]
  unfold ymd2ord
  omega

/-- Ordinal of the constructed `weekOneDate`. -/
theorem weekOneDate_ord (y : Int) : (weekOneDate y).ord = WeekOne y := by
  show ymd2ord y 8 (weekOneDay y) = WeekOne y
  unfold weekOneDay ymd2ord
  ring

/-- Ordinal of the constructed `sundayBeforeWeekOne`. -/
theorem sundayBeforeWeekOne_ord (y : Int) :
    (sundayBeforeWeekOne y).ord = WeekOne y - 1 := by
  show ymd2ord y 8 (weekOneDay y - 1) = WeekOne y - 1
  unfold weekOneDay ymd2ord
  ring

/-
Claim theorems.
-/

/-- C6: for every year, `WeekOne(year)` is a Monday (`pyWeekday = 0`) lying
within August, four days before a Friday that also lies within August and is
the latest Friday on or before 31 August (hence the last Friday falling
within August). -/
theorem C6_week_one_rule (y : Int) :
    pyWeekday (WeekOne y) = 0 ∧
    pyWeekday (WeekOne y + 4) = 4 ∧
    ymd2ord y 8 1 ≤ WeekOne y ∧
    WeekOne y + 4 ≤ ymd2ord y 8 31 ∧
    (∀ g : Int, pyWeekday g = 4 → ymd2ord y 8 1 ≤ g → g ≤ ymd2ord y 8 31 →
      g ≤ WeekOne y + 4) := by
  have key := weekOne_closed_form y
  have h30 : ymd2ord y 8 31 = ymd2ord y 8 1 + 30 := by rw [ymd2ord_august]; ring
  refine ⟨?_, ?_, ?_, ?_, fun g hg hg1 hg2 => ?_⟩ <;>
    unfold pyWeekday at * <;> omega

/-- C6 witness: the conjuncts of `C6_week_one_rule` at the year 2022, with
the last-Friday maximality applied to the concrete Friday 26 August 2022. -/
theorem C6_week_one_rule_witness :
    pyWeekday (WeekOne 2022) = 0 ∧ ymd2ord 2022 8 26 ≤ WeekOne 2022 + 4 :=
  ⟨(C6_week_one_rule 2022).1,
   (C6_week_one_rule 2022).2.2.2.2 (ymd2ord 2022 8 26)
     (by decide) (by decide) (by decide)⟩

/-- C7: `AcademicYear(d)` is `d.year` when `d` is on or after
`WeekOne(d.year)` and `d.year - 1` otherwise; the Sunday immediately before
`WeekOne(Y)` (a valid August date) belongs to academic year `Y - 1`, while
the Monday `WeekOne(Y)` itself belongs to academic year `Y` with
`UniversityWeek` equal to 1. -/
theorem C7_year_boundary (y : Int) :
    (∀ d : PyDate, (WeekOne d.year ≤ d.ord → AcademicYear d = d.year) ∧
      (d.ord < WeekOne d.year → AcademicYear d = d.year - 1)) ∧
    (sundayBeforeWeekOne y).validDate ∧
    pyWeekday (sundayBeforeWeekOne y).ord = 6 ∧
    AcademicYear (sundayBeforeWeekOne y) = y - 1 ∧
    (weekOneDate y).validDate ∧
    AcademicYear (weekOneDate y) = y ∧
    UniversityWeek (weekOneDate y) = 1 := by
  have hday := weekOneDay_bounds y
  have hsord := sundayBeforeWeekOne_ord y
  have hword := weekOneDate_ord y
  have hmod := weekOne_emod y
  have hsy : (sundayBeforeWeekOne y).year = y := rfl
  have hsm : (sundayBeforeWeekOne y).month = 8 := rfl
  have hsd : (sundayBeforeWeekOne y).day = weekOneDay y - 1 := rfl
  have hwy : (weekOneDate y).year = y := rfl
  have hwm : (weekOneDate y).month = 8 := rfl
  have hwd : (weekOneDate y).day = weekOneDay y := rfl
  have hdim := days_in_month_august y
  refine ⟨fun d => ⟨fun h => ?_, fun h => ?_⟩, ?_, ?_, ?_, ?_, ?_, ?_⟩
  · simp [AcademicYear, h]
  · simp [AcademicYear, not_le.mpr h]
  · exact ⟨by omega, by omega, by omega, by rw [hsy, hsm, hdim]; omega⟩
  · unfold pyWeekday; omega
  · have hc : ¬ WeekOne (sundayBeforeWeekOne y).year ≤ (sundayBeforeWeekOne y).ord := by
      rw [hsy]; omega
    rw [AcademicYear, if_neg hc, hsy]
  · exact ⟨by omega, by omega, by omega, by rw [hwy, hwm, hdim]; omega⟩
  · have hc : WeekOne (weekOneDate y).year ≤ (weekOneDate y).ord := by
      rw [hwy]; omega
    rw [AcademicYear, if_pos hc, hwy]
  · have hc : WeekOne (weekOneDate y).year ≤ (weekOneDate y).ord := by
      rw [hwy]; omega
    unfold UniversityWeek
    rw [if_pos hc, hwy, hword]
    norm_num

/-- C7 witness: `C7_year_boundary` at the year 2022, with the first conjunct
applied to the concrete date 1 August 2022 (which precedes `WeekOne 2022`). -/
theorem C7_year_boundary_witness :
    AcademicYear ⟨2022, 8, 1⟩ = 2021 ∧
    AcademicYear (sundayBeforeWeekOne 2022) = 2021 ∧
    UniversityWeek (weekOneDate 2022) = 1 :=
  ⟨((C7_year_boundary 2022).1 ⟨2022, 8, 1⟩).2 (by decide),
   (C7_year_boundary 2022).2.2.2.1,
   (C7_year_boundary 2022).2.2.2.2.2.2⟩

/-- C1: for every calendar date `d` (any year/month/day triple, in
particular every valid date), composing the backward and forward mappings is
the identity: `DateFromUniversityWeek(AcademicYear(d), UniversityWeek(d),
d.weekday())` is the date `d` again (as ordinals), including for dates that
fall before their own calendar year's `WeekOne`, which resolve against the
previous year's `WeekOne`. -/
theorem C1_inversion (d : PyDate) (_hv : d.validDate) :
    DateFromUniversityWeek (AcademicYear d) (UniversityWeek d) d.weekday
      = d.ord := by
  unfold DateFromUniversityWeek PyDate.weekday pyWeekday
  unfold UniversityWeek AcademicYear
  by_cases h : WeekOne d.year ≤ d.ord
  · rw [if_pos h, if_pos h]
    have := weekOne_emod d.year
    omega
  · rw [if_neg h, if_neg h]
    have := weekOne_emod (d.year - 1)
    omega

/-- C1 witness: the inversion at the valid date 19 September 2022. -/
theorem C1_inversion_witness :
    DateFromUniversityWeek (AcademicYear ⟨2022, 9, 19⟩)
      (UniversityWeek ⟨2022, 9, 19⟩) (PyDate.weekday ⟨2022, 9, 19⟩)
      = PyDate.ord ⟨2022, 9, 19⟩ :=
  C1_inversion ⟨2022, 9, 19⟩ (by decide)

/-- C8: for two dates `d1 < d2` (as dates, i.e. as ordinals) in the same
academic year, `UniversityWeek d1 ≤ UniversityWeek d2`. -/
theorem C8_monotone (d1 d2 : PyDate) (hlt : d1.ord < d2.ord)
    (hay : AcademicYear d1 = AcademicYear d2) :
    UniversityWeek d1 ≤ UniversityWeek d2 := by
  rw [universityWeek_eq_anchor, universityWeek_eq_anchor, hay]
  omega

/-- C8 witness: monotonicity at 19 and 20 September 2022. -/
theorem C8_monotone_witness :
    UniversityWeek ⟨2022, 9, 19⟩ ≤ UniversityWeek ⟨2022, 9, 20⟩ :=
  C8_monotone ⟨2022, 9, 19⟩ ⟨2022, 9, 20⟩ (by decide) (by decide)

/-- C2 counterexample: 19 September 2022 lies in university week 5, but
`TermWeek` returns term-week 0 for it, not term-week 1 as the claim states
(the term-1 branch computes `uweek - 5`, unlike the 1-based terms 2 and 3). -/
theorem C2_term_week_counterexample :
    UniversityWeek ⟨2022, 9, 19⟩ = 5 ∧
    TermWeek ⟨2022, 9, 19⟩ = (1, 0, 5) ∧
    TermWeek ⟨2022, 9, 19⟩ ≠ (1, 1, 5) := by
  refine ⟨by decide, by decide, by decide⟩

/-- C2 amended: weeks 5-16 map to term 1 with term-week `uweek - 5` (so week
5 gives term-week 0 and week 16 gives term-week 11), weeks 21-31 to term 2
with term-week `uweek - 20`, weeks 36-43 to term 3 with term-week
`uweek - 35`, and every other week number to term 0 with term-week 0. -/
theorem C2_term_ranges (d : PyDate) :
    (5 ≤ UniversityWeek d → UniversityWeek d ≤ 16 →
      TermWeek d = (1, UniversityWeek d - 5, UniversityWeek d)) ∧
    (21 ≤ UniversityWeek d → UniversityWeek d ≤ 31 →
      TermWeek d = (2, UniversityWeek d - 20, UniversityWeek d)) ∧
    (36 ≤ UniversityWeek d → UniversityWeek d ≤ 43 →
      TermWeek d = (3, UniversityWeek d - 35, UniversityWeek d)) ∧
    (¬ (5 ≤ UniversityWeek d ∧ UniversityWeek d ≤ 16) →
      ¬ (21 ≤ UniversityWeek d ∧ UniversityWeek d ≤ 31) →
      ¬ (36 ≤ UniversityWeek d ∧ UniversityWeek d ≤ 43) →
      TermWeek d = (0, 0, UniversityWeek d)) := by
  unfold TermWeek
  refine ⟨fun h1 h2 => ?_, fun h1 h2 => ?_, fun h1 h2 => ?_, fun h1 h2 h3 => ?_⟩ <;>
    split_ifs <;> first | rfl | omega

/-- C2 amended witness: the term-1 branch of `C2_term_ranges` applied to the
week-5 date 19 September 2022. -/
theorem C2_term_ranges_witness :
    TermWeek ⟨2022, 9, 19⟩
      = (1, UniversityWeek ⟨2022, 9, 19⟩ - 5, UniversityWeek ⟨2022, 9, 19⟩) :=
  (C2_term_ranges ⟨2022, 9, 19⟩).1 (by decide) (by decide)

/-- A left fold that decrements its accumulator once per element satisfying
`p` computes the starting value minus the count of such elements. -/
theorem foldl_decrement_eq_sub_countP {α : Type} (p : α → Prop) [DecidablePred p] :
    ∀ (l : List α) (a : Int),
      l.foldl (fun acc x => if p x then acc - 1 else acc) a
        = a - (l.countP (fun x => decide (p x)) : Nat) := by
  intro l
  induction l with
  | nil => intro a; simp
  | cons x xs ih =>
    intro a
    rw [List.foldl_cons, List.countP_cons, ih]
    by_cases h : p x
    · simp only [if_pos h, h]
      simp
      omega
    · simp only [if_neg h, h]
      simp

/-- C3: whenever `days_since_deadline` returns normally, its first component
equals `raw_elapsed - weekend_count - closed_count - 1`, where `raw_elapsed`
is `ceil((today - deadline) in seconds / 86400)`, `weekend_count` counts the
Saturdays and Sundays among the days `deadline + 1 .. deadline + raw_elapsed`,
and `closed_count` counts the closed days `c` with `deadline < c` and `c`
before `today` (each closed day compared against `today`, not against the
walked day, so a closed weekend day is subtracted by both counts). -/
theorem C3_elapsed_formula (deadline today : Int) (closed_days : List Int)
    (e md : Int) (w : Bool)
    (h : days_since_deadline deadline today closed_days = some (e, md, w)) :
    e = int_ceil (today - deadline) 86400
      - spec_weekend_count deadline (int_ceil (today - deadline) 86400)
      - spec_closed_count deadline today closed_days - 1 := by
  have he : e = elapsed_days deadline today closed_days - 1 := by
    simp only [days_since_deadline, days_since_deadline_gen] at h
    rcases hs : scanAux deadline 15 (List.map (fun s => s / 86400) closed_days) 1000 0 1 with
      _ | md'
    · rw [hs] at h
      exact Option.noConfusion h
    · rw [hs] at h
      simp only [Option.some.injEq, Prod.mk.injEq] at h
      exact h.1.symm
  rw [he]
  unfold elapsed_days
  rw [foldl_decrement_eq_sub_countP, foldl_decrement_eq_sub_countP]
  have hw : (List.range (int_ceil (today - deadline) 86400).toNat).countP
        (fun j => decide (4 < pyWeekday ((deadline + ((j : Int) + 1) * 86400) / 86400)))
      = (List.range (int_ceil (today - deadline) 86400).toNat).countP
        (fun j => decide (pyWeekday ((deadline + ((j : Int) + 1) * 86400) / 86400) = 5 ∨
          pyWeekday ((deadline + ((j : Int) + 1) * 86400) / 86400) = 6)) := by
    refine List.countP_congr (fun j _ => ?_)
    simp only [decide_eq_true_eq]
    unfold pyWeekday
    omega
  have hc : closed_days.countP
        (fun c => decide (0 < today - c ∧ deadline - c < 0))
      = closed_days.countP (fun c => decide (deadline < c ∧ c < today)) := by
    refine List.countP_congr (fun c _ => ?_)
    simp only [decide_eq_true_eq]
    omega
  rw [hw, hc]
  unfold spec_weekend_count spec_closed_count
  ring

/-- C3 witness: the formula at the concrete deadline Friday 16 December 2022
(midnight), today Friday 23 December 2022 (midnight), and the source's
closed-day list: one elapsed working day, so the function returns 0. -/
theorem C3_elapsed_formula_witness :
    (0 : Int) = int_ceil (86400 * ymd2ord 2022 12 23 - 86400 * ymd2ord 2022 12 16) 86400
      - spec_weekend_count (86400 * ymd2ord 2022 12 16)
          (int_ceil (86400 * ymd2ord 2022 12 23 - 86400 * ymd2ord 2022 12 16) 86400)
      - spec_closed_count (86400 * ymd2ord 2022 12 16) (86400 * ymd2ord 2022 12 23)
          closed_days_source - 1 :=
  C3_elapsed_formula (86400 * ymd2ord 2022 12 16) (86400 * ymd2ord 2022 12 23)
    closed_days_source 0 (86400 * ymd2ord 2023 1 23) false (by decide)

/-- Adding `k` whole days to a datetime shifts its date ordinal by `k`. -/
theorem ediv_day_shift (s k : Int) : (s + k * 86400) / 86400 = s / 86400 + k :=
  Int.add_mul_ediv_right s k (by norm_num)

/-- A successful exit of the scan loop happens at some loop counter
`days_from = k ≤ 1000` and returns `deadline + (k - 1) days`, so the result
lies within 999 days of the deadline. -/
theorem scanAux_some_bound (dl t : Int) (cds : List Int) :
    ∀ (fuel : Nat) (w k md : Int), 1 ≤ k → k ≤ 1000 →
      scanAux dl t cds fuel w k = some md →
      dl ≤ md ∧ md ≤ dl + 999 * 86400 := by
  intro fuel
  induction fuel with
  | zero =>
    intro w k md h1 h2 h
    simp [scanAux] at h
  | succ fuel ih =>
    intro w k md h1 h2 h
    simp only [scanAux] at h
    split at h
    · split at h
      · exact Option.noConfusion h
      · rename_i hguard
        exact ih _ _ _ (by omega) (by omega) h
    · simp only [Option.some.injEq] at h
      omega

/-- A successful scan result, entered with strictly fewer accumulated
working days than the target, is the datetime of a day that passed the
working-day test: a Monday-Friday day whose date is not closed. -/
theorem scanAux_some_working (dl t : Int) (cds : List Int) :
    ∀ (fuel : Nat) (w k md : Int), w < t →
      scanAux dl t cds fuel w k = some md →
      pyWeekday (md / 86400) < 5 ∧ ¬ md / 86400 ∈ cds := by
  intro fuel
  induction fuel with
  | zero =>
    intro w k md hw h
    simp [scanAux] at h
  | succ fuel ih =>
    intro w k md hw h
    simp only [scanAux] at h
    rw [if_pos hw] at h
    split at h
    · exact Option.noConfusion h
    · rename_i hguard
      by_cases hc : pyWeekday ((dl + k * 86400) / 86400) < 5 ∧
          ¬ (dl + k * 86400) / 86400 ∈ cds
      · rw [if_pos hc] at h
        by_cases hw2 : w + 1 < t
        · exact ih _ _ _ hw2 h
        · rcases fuel with _ | fuel2
          · simp [scanAux] at h
          · simp only [scanAux] at h
            rw [if_neg hw2] at h
            simp only [Option.some.injEq] at h
            have hmd : md = dl + k * 86400 := by omega
            rw [hmd]
            exact hc
      · rw [if_neg hc] at h
        exact ih _ _ _ hw h

/-- If the date of every day the scan can still examine (days `k` to 1000
after the deadline) is in the closed list, the scan reaches the 1000-day
guard and aborts with `none`. -/
theorem scanAux_all_closed_none (dl t : Int) (cds : List Int) :
    ∀ (fuel : Nat) (w k : Int), 1001 ≤ (fuel : Int) + k → 1 ≤ k → k ≤ 1000 →
      (∀ i : Int, k ≤ i → i ≤ 1000 → (dl + i * 86400) / 86400 ∈ cds) →
      w < t →
      scanAux dl t cds fuel w k = none := by
  intro fuel
  induction fuel with
  | zero =>
    intro w k hf h1 h2 hall hw
    exfalso
    omega
  | succ fuel ih =>
    intro w k hf h1 h2 hall hw
    simp only [scanAux]
    rw [if_pos hw]
    have hcur : (dl + k * 86400) / 86400 ∈ cds := hall k le_rfl h2
    have hcond : ¬ (pyWeekday ((dl + k * 86400) / 86400) < 5 ∧
        ¬ (dl + k * 86400) / 86400 ∈ cds) := fun hcontra => hcontra.2 hcur
    rw [if_neg hcond]
    by_cases hk : (1000 : Int) < k + 1
    · rw [if_pos hk]
    · rw [if_neg hk]
      refine ih _ _ (by omega) (by omega) (by omega)
        (fun i hi1 hi2 => hall i (by omega) hi2) hw

/-- With the target working-day count already reached, the scan loop exits
at once with `deadline + (days_from - 1) days`. -/
theorem scanAux_exit (dl t : Int) (cds : List Int) (fuel : Nat) (w k : Int)
    (h : ¬ w < t) :
    scanAux dl t cds (Nat.succ fuel) w k = some (dl + (k - 1) * 86400) := by
  simp only [scanAux]
  rw [if_neg h]

/-- C5: the marking-deadline scan cannot loop forever.  If every day for the
1000 days after the deadline is closed, `days_since_deadline` aborts with
the fatal configuration error (modelled as `none`); and any normal result is
a marking deadline within 999 days of the deadline, so the scan never
examines more than 1000 days. -/
theorem C5_safety_bound (deadline today : Int) (closed_days : List Int) :
    ((∀ i : Int, 1 ≤ i → i ≤ 1000 →
        (deadline + i * 86400) / 86400 ∈ closed_days.map (fun s => s / 86400)) →
      days_since_deadline deadline today closed_days = none) ∧
    (∀ e md w, days_since_deadline deadline today closed_days = some (e, md, w) →
      deadline ≤ md ∧ md ≤ deadline + 999 * 86400) := by
  constructor
  · intro hall
    simp only [days_since_deadline, days_since_deadline_gen]
    rw [scanAux_all_closed_none deadline 15 (List.map (fun s => s / 86400) closed_days)
      1000 0 1 (by norm_num) (by norm_num) (by norm_num) hall (by norm_num)]
  · intro e md w h
    simp only [days_since_deadline, days_since_deadline_gen] at h
    rcases hs : scanAux deadline 15 (List.map (fun s => s / 86400) closed_days) 1000 0 1 with
      _ | md2
    · rw [hs] at h
      exact Option.noConfusion h
    · rw [hs] at h
      simp only [Option.some.injEq, Prod.mk.injEq] at h
      obtain ⟨-, hmd, -⟩ := h
      rw [← hmd]
      exact scanAux_some_bound deadline 15 _ 1000 0 1 md2 (by norm_num) (by norm_num) hs

set_option maxRecDepth 8000 in
/-- Membership fact for the C5 witness: the all-closed hypothesis holds for
the list that enumerates the 1000 dates following 2 January 2023. -/
theorem C5_all_closed_mem (i : Int) (h1 : 1 ≤ i) (h2 : i ≤ 1000) :
    (86400 * ymd2ord 2023 1 2 + i * 86400) / 86400 ∈
      ((List.range 1000).map (fun j => 86400 * (ymd2ord 2023 1 2 + 1 + (j : Int)))).map
        (fun s => s / 86400) := by
  have hdiv : (86400 * ymd2ord 2023 1 2 + i * 86400) / 86400 = ymd2ord 2023 1 2 + i := by
    rw [ediv_day_shift, Int.mul_ediv_cancel_left _ (by norm_num : (86400 : Int) ≠ 0)]
  rw [hdiv]
  have hlt : (i - 1).toNat < 1000 := by omega
  have h0 : (i - 1).toNat ∈ List.range 1000 := List.mem_range.mpr hlt
  have h1 := List.mem_map_of_mem
    (fun j : Nat => 86400 * (ymd2ord 2023 1 2 + 1 + (j : Int))) h0
  have h2 := List.mem_map_of_mem (fun s : Int => s / 86400) h1
  have hval : (fun s : Int => s / 86400)
      ((fun j : Nat => 86400 * (ymd2ord 2023 1 2 + 1 + (j : Int))) (i - 1).toNat)
      = ymd2ord 2023 1 2 + i := by
    show 86400 * (ymd2ord 2023 1 2 + 1 + (((i - 1).toNat : Nat) : Int)) / 86400
      = ymd2ord 2023 1 2 + i
    rw [Int.mul_ediv_cancel_left _ (by norm_num : (86400 : Int) ≠ 0)]
    omega
  rw [← hval]
  exact h2

/-- C5 witness: the abort branch of `C5_safety_bound` at the concrete
deadline 2 January 2023 with the next 1000 days all closed, and the bound
branch at the concrete deadline 19 September 2022 with no closed days. -/
theorem C5_safety_bound_witness :
    days_since_deadline (86400 * ymd2ord 2023 1 2) (86400 * ymd2ord 2023 1 2)
      ((List.range 1000).map (fun j => 86400 * (ymd2ord 2023 1 2 + 1 + (j : Int))))
      = none ∧
    ((86400 * ymd2ord 2022 9 19 : Int) ≤ 86400 * (ymd2ord 2022 9 19 + 21) ∧
      (86400 * (ymd2ord 2022 9 19 + 21) : Int)
        ≤ 86400 * ymd2ord 2022 9 19 + 999 * 86400) :=
  ⟨(C5_safety_bound (86400 * ymd2ord 2023 1 2) (86400 * ymd2ord 2023 1 2)
      ((List.range 1000).map (fun j => 86400 * (ymd2ord 2023 1 2 + 1 + (j : Int))))).1
      (fun i h1 h2 => C5_all_closed_mem i h1 h2),
   (C5_safety_bound (86400 * ymd2ord 2022 9 19) (86400 * ymd2ord 2022 9 19) []).2
      (-1) (86400 * (ymd2ord 2022 9 19 + 21)) true (by decide)⟩

/-- C9 counterexample: with the marking window generalized to a parameter
as the spec's contract `ComputeDeadlineStatus(..., markingWindowDays)`
requires, a window of 0 does not fail: the computation returns a normal
result whose marking deadline is the deadline itself. -/
theorem C9_no_validation_counterexample :
    days_since_deadline_gen 0 (86400 * ymd2ord 2022 9 19) (86400 * ymd2ord 2022 9 20) []
      = some (0, 86400 * ymd2ord 2022 9 19, true) ∧
    days_since_deadline_gen 0 (86400 * ymd2ord 2022 9 19) (86400 * ymd2ord 2022 9 20) []
      ≠ none := by
  refine ⟨by decide, by decide⟩

/-- C9 amended: the computation performs no validation of the marking
window.  For every non-positive `markingWindowDays` it returns normally
instead of failing: the scan loop exits at once and the returned marking
deadline is the deadline itself. -/
theorem C9_nonpositive_window (t deadline today : Int) (closed_days : List Int)
    (ht : t ≤ 0) :
    days_since_deadline_gen t deadline today closed_days
      = some (elapsed_days deadline today closed_days - 1, deadline,
          is_working_day today (closed_days.map (fun s => s / 86400))) := by
  have hscan : scanAux deadline t (closed_days.map (fun s => s / 86400)) 1000 0 1
      = some deadline := by
    rw [show (1000 : Nat) = Nat.succ 999 from rfl,
      scanAux_exit deadline t _ 999 0 1 (by omega)]
    norm_num
  simp only [days_since_deadline_gen]
  rw [hscan]

/-- C9 amended witness: the no-validation behaviour at window 0 with the
concrete deadline 2 January 2023. -/
theorem C9_nonpositive_window_witness :
    days_since_deadline_gen 0 (86400 * ymd2ord 2023 1 2) (86400 * ymd2ord 2023 1 3) []
      = some (elapsed_days (86400 * ymd2ord 2023 1 2) (86400 * ymd2ord 2023 1 3) [] - 1,
          86400 * ymd2ord 2023 1 2,
          is_working_day (86400 * ymd2ord 2023 1 3) (List.map (fun s => s / 86400) [])) :=
  C9_nonpositive_window 0 (86400 * ymd2ord 2023 1 2) (86400 * ymd2ord 2023 1 3) []
    (by norm_num)

/-- C10: whenever `days_since_deadline` returns normally, the marking
deadline it returns is itself a working day: its weekday is Monday-Friday
and its date is not in the closed-date list. -/
theorem C10_marking_deadline_working (deadline today : Int)
    (closed_days : List Int) (e md : Int) (w : Bool)
    (h : days_since_deadline deadline today closed_days = some (e, md, w)) :
    pyWeekday (md / 86400) < 5 ∧
    ¬ md / 86400 ∈ closed_days.map (fun s => s / 86400) := by
  simp only [days_since_deadline, days_since_deadline_gen] at h
  rcases hs : scanAux deadline 15 (List.map (fun s => s / 86400) closed_days) 1000 0 1 with
    _ | md2
  · rw [hs] at h
    exact Option.noConfusion h
  · rw [hs] at h
    simp only [Option.some.injEq, Prod.mk.injEq] at h
    obtain ⟨-, hmd, -⟩ := h
    rw [← hmd]
    exact scanAux_some_working deadline 15 _ 1000 0 1 md2 (by norm_num) hs

/-- C10 witness: the marking deadline computed from the Monday 19 September
2022 deadline with no closed days is a working day. -/
theorem C10_marking_deadline_working_witness :
    pyWeekday (86400 * (ymd2ord 2022 9 19 + 21) / 86400) < 5 ∧
    ¬ 86400 * (ymd2ord 2022 9 19 + 21) / 86400
        ∈ List.map (fun s => s / 86400) ([] : List Int) :=
  C10_marking_deadline_working (86400 * ymd2ord 2022 9 19) (86400 * ymd2ord 2022 9 19)
    [] (-1) (86400 * (ymd2ord 2022 9 19 + 21)) true (by decide)


/-- Unfolding of one step of the spec-side walk. -/
theorem spec_add_weekdays_succ_eval (o : Int) (n : Nat) :
    spec_add_weekdays o (n + 1) = spec_add_weekdays (spec_next_working o) n := rfl

/-- The spec-side walk composes additively. -/
theorem spec_add_weekdays_add (m : Nat) :
    ∀ (o : Int) (n : Nat),
      spec_add_weekdays o (m + n) = spec_add_weekdays (spec_add_weekdays o m) n := by
  induction m with
  | zero =>
    intro o n
    rw [Nat.zero_add]
    rfl
  | succ m ih =>
    intro o n
    rw [show m + 1 + n = (m + n) + 1 by omega, spec_add_weekdays_succ_eval,
      spec_add_weekdays_succ_eval]
    exact ih (spec_next_working o) n

/-- The walk step from `o` and from `o + 1` reach the same day when `o + 1`
is a Saturday or Sunday. -/
theorem spec_next_working_skip (o : Int) (h : ¬ pyWeekday (o + 1) < 5) :
    spec_next_working o = spec_next_working (o + 1) := by
  unfold spec_next_working pyWeekday at *
  split_ifs <;> omega

/-- Skipping a leading weekend day does not change the walk. -/
theorem spec_add_weekdays_skip (o : Int) (n : Nat) (h : ¬ pyWeekday (o + 1) < 5) :
    spec_add_weekdays o (n + 1) = spec_add_weekdays (o + 1) (n + 1) := by
  rw [spec_add_weekdays_succ_eval, spec_add_weekdays_succ_eval,
    spec_next_working_skip o h]

/-- Adding five weekdays starting after a Monday-Friday day advances the
calendar by exactly one week. -/
theorem spec_add_weekdays_five (o : Int) (h : pyWeekday o < 5) :
    spec_add_weekdays o 5 = o + 7 := by
  have hcase : pyWeekday o = 0 ∨ pyWeekday o = 1 ∨ pyWeekday o = 2 ∨
      pyWeekday o = 3 ∨ pyWeekday o = 4 := by
    unfold pyWeekday at *
    omega
  rcases hcase with h0 | h0 | h0 | h0 | h0
  · have n1 : spec_next_working o = o + 1 := by
      unfold spec_next_working pyWeekday at *; split_ifs <;> omega
    have n2 : spec_next_working (o + 1) = o + 2 := by
      unfold spec_next_working pyWeekday at *; split_ifs <;> omega
    have n3 : spec_next_working (o + 2) = o + 3 := by
      unfold spec_next_working pyWeekday at *; split_ifs <;> omega
    have n4 : spec_next_working (o + 3) = o + 4 := by
      unfold spec_next_working pyWeekday at *; split_ifs <;> omega
    have n5 : spec_next_working (o + 4) = o + 7 := by
      unfold spec_next_working pyWeekday at *; split_ifs <;> omega
    rw [show (5 : Nat) = 4 + 1 from rfl, spec_add_weekdays_succ_eval, n1,
      show (4 : Nat) = 3 + 1 from rfl, spec_add_weekdays_succ_eval, n2,
      show (3 : Nat) = 2 + 1 from rfl, spec_add_weekdays_succ_eval, n3,
      show (2 : Nat) = 1 + 1 from rfl, spec_add_weekdays_succ_eval, n4,
      show (1 : Nat) = 0 + 1 from rfl, spec_add_weekdays_succ_eval, n5]
    rfl
  · have n1 : spec_next_working o = o + 1 := by
      unfold spec_next_working pyWeekday at *; split_ifs <;> omega
    have n2 : spec_next_working (o + 1) = o + 2 := by
      unfold spec_next_working pyWeekday at *; split_ifs <;> omega
    have n3 : spec_next_working (o + 2) = o + 3 := by
      unfold spec_next_working pyWeekday at *; split_ifs <;> omega
    have n4 : spec_next_working (o + 3) = o + 6 := by
      unfold spec_next_working pyWeekday at *; split_ifs <;> omega
    have n5 : spec_next_working (o + 6) = o + 7 := by
      unfold spec_next_working pyWeekday at *; split_ifs <;> omega
    rw [show (5 : Nat) = 4 + 1 from rfl, spec_add_weekdays_succ_eval, n1,
      show (4 : Nat) = 3 + 1 from rfl, spec_add_weekdays_succ_eval, n2,
      show (3 : Nat) = 2 + 1 from rfl, spec_add_weekdays_succ_eval, n3,
      show (2 : Nat) = 1 + 1 from rfl, spec_add_weekdays_succ_eval, n4,
      show (1 : Nat) = 0 + 1 from rfl, spec_add_weekdays_succ_eval, n5]
    rfl
  · have n1 : spec_next_working o = o + 1 := by
      unfold spec_next_working pyWeekday at *; split_ifs <;> omega
    have n2 : spec_next_working (o + 1) = o + 2 := by
      unfold spec_next_working pyWeekday at *; split_ifs <;> omega
    have n3 : spec_next_working (o + 2) = o + 5 := by
      unfold spec_next_working pyWeekday at *; split_ifs <;> omega
    have n4 : spec_next_working (o + 5) = o + 6 := by
      unfold spec_next_working pyWeekday at *; split_ifs <;> omega
    have n5 : spec_next_working (o + 6) = o + 7 := by
      unfold spec_next_working pyWeekday at *; split_ifs <;> omega
    rw [show (5 : Nat) = 4 + 1 from rfl, spec_add_weekdays_succ_eval, n1,
      show (4 : Nat) = 3 + 1 from rfl, spec_add_weekdays_succ_eval, n2,
      show (3 : Nat) = 2 + 1 from rfl, spec_add_weekdays_succ_eval, n3,
      show (2 : Nat) = 1 + 1 from rfl, spec_add_weekdays_succ_eval, n4,
      show (1 : Nat) = 0 + 1 from rfl, spec_add_weekdays_succ_eval, n5]
    rfl
  · have n1 : spec_next_working o = o + 1 := by
      unfold spec_next_working pyWeekday at *; split_ifs <;> omega
    have n2 : spec_next_working (o + 1) = o + 4 := by
      unfold spec_next_working pyWeekday at *; split_ifs <;> omega
    have n3 : spec_next_working (o + 4) = o + 5 := by
      unfold spec_next_working pyWeekday at *; split_ifs <;> omega
    have n4 : spec_next_working (o + 5) = o + 6 := by
      unfold spec_next_working pyWeekday at *; split_ifs <;> omega
    have n5 : spec_next_working (o + 6) = o + 7 := by
      unfold spec_next_working pyWeekday at *; split_ifs <;> omega
    rw [show (5 : Nat) = 4 + 1 from rfl, spec_add_weekdays_succ_eval, n1,
      show (4 : Nat) = 3 + 1 from rfl, spec_add_weekdays_succ_eval, n2,
      show (3 : Nat) = 2 + 1 from rfl, spec_add_weekdays_succ_eval, n3,
      show (2 : Nat) = 1 + 1 from rfl, spec_add_weekdays_succ_eval, n4,
      show (1 : Nat) = 0 + 1 from rfl, spec_add_weekdays_succ_eval, n5]
    rfl
  · have n1 : spec_next_working o = o + 3 := by
      unfold spec_next_working pyWeekday at *; split_ifs <;> omega
    have n2 : spec_next_working (o + 3) = o + 4 := by
      unfold spec_next_working pyWeekday at *; split_ifs <;> omega
    have n3 : spec_next_working (o + 4) = o + 5 := by
      unfold spec_next_working pyWeekday at *; split_ifs <;> omega
    have n4 : spec_next_working (o + 5) = o + 6 := by
      unfold spec_next_working pyWeekday at *; split_ifs <;> omega
    have n5 : spec_next_working (o + 6) = o + 7 := by
      unfold spec_next_working pyWeekday at *; split_ifs <;> omega
    rw [show (5 : Nat) = 4 + 1 from rfl, spec_add_weekdays_succ_eval, n1,
      show (4 : Nat) = 3 + 1 from rfl, spec_add_weekdays_succ_eval, n2,
      show (3 : Nat) = 2 + 1 from rfl, spec_add_weekdays_succ_eval, n3,
      show (2 : Nat) = 1 + 1 from rfl, spec_add_weekdays_succ_eval, n4,
      show (1 : Nat) = 0 + 1 from rfl, spec_add_weekdays_succ_eval, n5]
    rfl

/-- Adding fifteen weekdays starting after a Monday-Friday day advances the
calendar by exactly three weeks. -/
theorem spec_add_weekdays_fifteen (o : Int) (h : pyWeekday o < 5) :
    spec_add_weekdays o 15 = o + 21 := by
  have h7 : pyWeekday (o + 7) < 5 := by unfold pyWeekday at *; omega
  have h14 : pyWeekday (o + 7 + 7) < 5 := by unfold pyWeekday at *; omega
  rw [show (15 : Nat) = 5 + 10 from rfl, spec_add_weekdays_add,
    spec_add_weekdays_five o h,
    show (10 : Nat) = 5 + 5 from rfl, spec_add_weekdays_add,
    spec_add_weekdays_five (o + 7) h7,
    spec_add_weekdays_five (o + 7 + 7) h14]
  ring

/-- The slack term is between 0 and 2. -/
theorem wdslack_bounds (o : Int) : 0 ≤ wdslack o ∧ wdslack o ≤ 2 := by
  unfold wdslack
  split_ifs <;> norm_num

/-- Stepping off a weekend day decreases the slack by exactly one. -/
theorem wdslack_weekend_step (o : Int) (h : ¬ pyWeekday o < 5) :
    wdslack (o + 1) = wdslack o - 1 := by
  unfold wdslack pyWeekday at *
  split_ifs <;> omega

/-- With no closed dates, the scan loop started at loop counter `k` with `w`
of the `t` target working days already accumulated exits normally and
returns the day reached by the spec-side walk adding the remaining `t - w`
weekdays after day `k - 1`; the arithmetic side condition records that the
loop cannot hit the 1000-day guard (each pending weekday costs at most
seven scanned days, plus the slack for an initial weekend run). -/
theorem scanAux_no_closed (dl t : Int) :
    ∀ (fuel : Nat) (w k : Int), (fuel : Int) + k = 1001 → w < t →
      7 * (t - w) + k + wdslack (dl / 86400 + k) ≤ 1004 →
      scanAux dl t [] fuel w k
        = some (dl + (spec_add_weekdays (dl / 86400 + (k - 1)) (t - w).toNat
            - dl / 86400) * 86400) := by
  intro fuel
  induction fuel with
  | zero =>
    intro w k hf hw hs
    exfalso
    have := (wdslack_bounds (dl / 86400 + k)).1
    omega
  | succ fuel ih =>
    intro w k hf hw hs
    have hb1 := wdslack_bounds (dl / 86400 + k)
    have hb2 := wdslack_bounds (dl / 86400 + (k + 1))
    have hk997 : k ≤ 997 := by omega
    have hdord : (dl + k * 86400) / 86400 = dl / 86400 + k := ediv_day_shift dl k
    have hnotmem : ¬ (dl / 86400 + k) ∈ ([] : List Int) := List.not_mem_nil _
    simp only [scanAux]
    rw [if_pos hw, hdord]
    by_cases hwd : pyWeekday (dl / 86400 + k) < 5
    · rw [if_neg (by omega : ¬ (1000 : Int) < k + 1),
        if_pos (show pyWeekday (dl / 86400 + k) < 5 ∧
          ¬ dl / 86400 + k ∈ ([] : List Int) from ⟨hwd, hnotmem⟩)]
      have hnext : spec_next_working (dl / 86400 + (k - 1)) = dl / 86400 + k := by
        unfold spec_next_working
        rw [if_pos (show pyWeekday (dl / 86400 + (k - 1) + 1) < 5 by
          rw [show dl / 86400 + (k - 1) + 1 = dl / 86400 + k by ring]; exact hwd)]
        ring
      by_cases hw2 : w + 1 < t
      · rw [ih (w + 1) (k + 1) (by omega) hw2 (by omega)]
        have heq : spec_add_weekdays (dl / 86400 + (k - 1)) (t - w).toNat
            = spec_add_weekdays (dl / 86400 + (k + 1 - 1)) (t - (w + 1)).toNat := by
          rw [show (t - w).toNat = (t - (w + 1)).toNat + 1 by omega,
            spec_add_weekdays_succ_eval, hnext,
            show dl / 86400 + k = dl / 86400 + (k + 1 - 1) by ring]
        rw [heq]
      · rcases fuel with _ | fuel2
        · exfalso; omega
        · rw [scanAux_exit dl t [] fuel2 (w + 1) (k + 1) hw2]
          have hA : spec_add_weekdays (dl / 86400 + (k - 1)) (t - w).toNat
              = dl / 86400 + k := by
            rw [show (t - w).toNat = 0 + 1 by omega, spec_add_weekdays_succ_eval, hnext]
            rfl
          rw [hA]
          congr 1
          ring
    · rw [if_neg (by omega : ¬ (1000 : Int) < k + 1),
        if_neg (show ¬ (pyWeekday (dl / 86400 + k) < 5 ∧
          ¬ dl / 86400 + k ∈ ([] : List Int)) from fun hco => hwd hco.1)]
      have hstep : wdslack (dl / 86400 + (k + 1)) = wdslack (dl / 86400 + k) - 1 := by
        have h1 := wdslack_weekend_step (dl / 86400 + k) hwd
        rw [show dl / 86400 + k + 1 = dl / 86400 + (k + 1) by ring] at h1
        exact h1
      rw [ih w (k + 1) (by omega) hw (by omega)]
      have hskip : spec_add_weekdays (dl / 86400 + (k - 1)) (t - w).toNat
          = spec_add_weekdays (dl / 86400 + (k + 1 - 1)) (t - w).toNat := by
        rw [show (t - w).toNat = (t - w - 1).toNat + 1 by omega]
        have h2 := spec_add_weekdays_skip (dl / 86400 + (k - 1)) (t - w - 1).toNat
          (by rw [show dl / 86400 + (k - 1) + 1 = dl / 86400 + k by ring]; exact hwd)
        rw [h2, show dl / 86400 + (k - 1) + 1 = dl / 86400 + (k + 1 - 1) by ring]
      rw [hskip]

/-- C4: with the source's marking window of 15 working days and no closed
dates, whenever `days_since_deadline` returns normally the marking deadline
equals the deadline plus 15 weekdays counted forward from the day after the
deadline, skipping Saturdays and Sundays (the spec-side walk
`spec_add_weekdays`); in particular, when the deadline falls on a Monday the
marking deadline is exactly 21 calendar days after the deadline. -/
theorem C4_marking_window (deadline today e md : Int) (w : Bool)
    (h : days_since_deadline deadline today [] = some (e, md, w)) :
    md = deadline
        + (spec_add_weekdays (deadline / 86400) 15 - deadline / 86400) * 86400 ∧
    (pyWeekday (deadline / 86400) = 0 → md = deadline + 21 * 86400) := by
  have hscan := scanAux_no_closed deadline 15 1000 0 1 (by norm_num) (by norm_num)
    (by have := wdslack_bounds (deadline / 86400 + 1); omega)
  have hsimp : spec_add_weekdays (deadline / 86400 + (1 - 1)) ((15 : Int) - 0).toNat
      = spec_add_weekdays (deadline / 86400) 15 := by
    norm_num
    congr 1
  rw [hsimp] at hscan
  simp only [days_since_deadline, days_since_deadline_gen, List.map_nil] at h
  rw [hscan] at h
  simp only [Option.some.injEq, Prod.mk.injEq] at h
  obtain ⟨-, hmd, -⟩ := h
  constructor
  · exact hmd.symm
  · intro hmon
    rw [← hmd, spec_add_weekdays_fifteen (deadline / 86400) (by omega)]
    ring

/-- C4 witness: both conjuncts at the concrete Monday deadline 19 September
2022 (midnight): the returned marking deadline is 21 days later. -/
theorem C4_marking_window_witness :
    ((86400 * (ymd2ord 2022 9 19 + 21) : Int)
      = 86400 * ymd2ord 2022 9 19
        + (spec_add_weekdays (86400 * ymd2ord 2022 9 19 / 86400) 15
            - 86400 * ymd2ord 2022 9 19 / 86400) * 86400) ∧
    (86400 * (ymd2ord 2022 9 19 + 21) : Int)
      = 86400 * ymd2ord 2022 9 19 + 21 * 86400 :=
  ⟨(C4_marking_window (86400 * ymd2ord 2022 9 19) (86400 * ymd2ord 2022 9 19)
      (-1) (86400 * (ymd2ord 2022 9 19 + 21)) true (by decide)).1,
   (C4_marking_window (86400 * ymd2ord 2022 9 19) (86400 * ymd2ord 2022 9 19)
      (-1) (86400 * (ymd2ord 2022 9 19 + 21)) true (by decide)).2 (by decide)⟩
